import Mathlib

/-!
Verification development for the SaveYears AI Coach repository.

Part A embeds the frontend JavaScript (frontend-vue/src/api.js and the
plan-view component script) shallowly: JavaScript values become the
inductive `JSVal`, property access that can raise a TypeError becomes
`Except Unit`, and `fetch` responses become explicit records.

Part B models the Program Generation & Validation Engine.  That engine
(the FastAPI backend) is not present under src/ — only its SQL schema,
its PRD and its HTTP callers are — so its definitions are modelled from
the spec, each marked `Modelled from the spec:` in its doc comment.
-/

/-- A JavaScript runtime value, as far as the embedded frontend code
inspects it: null, undefined, booleans, numbers, strings, arrays and
plain objects (association lists of fields). -/
inductive JSVal where
  | null
  | undefined
  | bool (b : Bool)
  | num (n : Int)
  | str (s : String)
  | arr (elems : List JSVal)
  | obj (fields : List (String × JSVal))

/-- JavaScript truthiness: null, undefined, false, 0 and "" are falsy;
arrays and objects are always truthy. -/
def JSVal.truthy : JSVal → Bool
  | .null => false
  | .undefined => false
  | .bool b => b
  | .num n => n != 0
  | .str s => !s.isEmpty
  | .arr _ => true
  | .obj _ => true

/-- `typeof v === 'string'`. -/
def JSVal.typeofIsString : JSVal → Bool
  | .str _ => true
  | _ => false

/-- `typeof v === 'object'`; in JavaScript this is true for null,
arrays and plain objects. -/
def JSVal.typeofIsObject : JSVal → Bool
  | .null => true
  | .arr _ => true
  | .obj _ => true
  | _ => false

/-- Is the value null or undefined (the receivers on which property
access throws a TypeError)? -/
def JSVal.notNullish : JSVal → Bool
  | .null => false
  | .undefined => false
  | _ => true

/-- Property read on a receiver already known not to be nullish: object
fields are looked up, anything else yields undefined. -/
def JSVal.getFieldRaw (v : JSVal) (k : String) : JSVal :=
  match v with
  | .obj fs => (fs.lookup k).getD .undefined
  | _ => .undefined

/-- Property access `v.k`; throws (TypeError) on null/undefined. -/
def JSVal.jsGet (v : JSVal) (k : String) : Except Unit JSVal :=
  match v with
  | .null => .error ()
  | .undefined => .error ()
  | _ => .ok (v.getFieldRaw k)

/-- JavaScript `a || b`: first truthy operand. -/
def jsOr (a b : JSVal) : JSVal := if a.truthy then a else b

/-- JavaScript `a ?? b`: `b` only when `a` is null or undefined. -/
def jsCoalesce (a b : JSVal) : JSVal :=
  match a with
  | .null => b
  | .undefined => b
  | _ => a

mutual

/-- `JSON.stringify`, restricted to the value shapes of `JSVal`. -/
def jsonStringify : JSVal → String
  | .null => "null"
  | .undefined => "null"
  | .bool b => if b then "true" else "false"
  | .num n => toString n
  | .str s => "\"" ++ s ++ "\""
  | .arr xs => "[" ++ jsonStringifyList xs ++ "]"
  | .obj fs => "\x7b" ++ jsonStringifyFields fs ++ "\x7d"

/-- Comma-separated serialisation of array elements. -/
def jsonStringifyList : List JSVal → String
  | [] => ""
  | [x] => jsonStringify x
  | x :: xs => jsonStringify x ++ "," ++ jsonStringifyList xs

/-- Comma-separated serialisation of object fields. -/
def jsonStringifyFields : List (String × JSVal) → String
  | [] => ""
  | [(k, v)] => "\"" ++ k ++ "\":" ++ jsonStringify v
  | (k, v) :: fs => "\"" ++ k ++ "\":" ++ jsonStringify v ++ "," ++ jsonStringifyFields fs

end

/-- JavaScript `Array.prototype.map` with a callback that can throw:
the first element to throw aborts the whole map. -/
def mapExcept (f : α → Except Unit β) : List α → Except Unit (List β)
  | [] => .ok []
  | x :: xs =>
    match f x with
    | .error e => .error e
    | .ok y =>
      match mapExcept f xs with
      | .error e => .error e
      | .ok ys => .ok (y :: ys)

/-- One element of `toList`'s object branch:
`o.name || o.exercise || o.title || JSON.stringify(o)` — property access
throws on a nullish element. -/
def toListDisplay (o : JSVal) : Except Unit JSVal :=
  match o with
  | .null => .error ()
  | .undefined => .error ()
  | _ =>
    .ok (jsOr (o.getFieldRaw "name")
          (jsOr (o.getFieldRaw "exercise")
            (jsOr (o.getFieldRaw "title") (.str (jsonStringify o)))))

/-- Embeds `toList` from the plan-view component: non-arrays (and falsy
values) give `[]`; an array whose first element is a string is returned
as-is; an array whose first element has typeof object is mapped through
`toListDisplay`. -/
def toList (a : JSVal) : Except Unit (List JSVal) :=
  if !a.truthy then .ok []
  else
    match a with
    | .arr xs =>
      if JSVal.typeofIsString (xs.getD 0 .undefined) then .ok xs
      else if JSVal.typeofIsObject (xs.getD 0 .undefined) then mapExcept toListDisplay xs
      else .ok []
    | _ => .ok []

/-- The display shape produced by `normalizeMain` for one row:
`{exercise, sets, reps, tempo, rest}`. -/
structure MainRow where
  exercise : JSVal
  sets : JSVal
  reps : JSVal
  tempo : JSVal
  rest : JSVal

/-- One element of `normalizeMain`: strings become `{exercise: o}`;
otherwise the row is assembled from `o`'s fields, with property access
throwing on a nullish element. -/
def normalizeRow (o : JSVal) : Except Unit MainRow :=
  if o.typeofIsString then
    .ok { exercise := o, sets := .undefined, reps := .undefined, tempo := .undefined, rest := .undefined }
  else
    match o with
    | .null => .error ()
    | .undefined => .error ()
    | _ =>
      .ok
        { exercise := jsOr (o.getFieldRaw "exercise")
            (jsOr (o.getFieldRaw "name") (jsOr (o.getFieldRaw "title") (.str "—")))
          sets := jsCoalesce (o.getFieldRaw "sets")
            (jsCoalesce (o.getFieldRaw "sets_count") (o.getFieldRaw "set"))
          reps := jsCoalesce (o.getFieldRaw "reps") (o.getFieldRaw "rep_range")
          tempo := o.getFieldRaw "tempo"
          rest := jsCoalesce (o.getFieldRaw "rest") (o.getFieldRaw "rest_seconds") }

/-- Embeds `normalizeMain` from the plan-view component: non-arrays give
`[]`; arrays are mapped through `normalizeRow`. -/
def normalizeMain (a : JSVal) : Except Unit (List MainRow) :=
  match a with
  | .arr xs => mapExcept normalizeRow xs
  | _ => .ok []

/-- A settled `fetch` response as far as `jsonFetch` inspects it; the
body is taken to be well-formed JSON, with `jsonBody` the value
`res.json()` resolves to. -/
structure JSResponse where
  ok : Bool
  status : Nat
  statusText : String
  jsonBody : JSVal

/-- Embeds `jsonFetch` from frontend-vue/src/api.js: when `res.ok` is
false it throws `new Error(res.status + " " + res.statusText)`,
otherwise it returns `res.json()`. -/
def jsonFetch (res : JSResponse) : Except String JSVal :=
  if !res.ok then .error (toString res.status ++ " " ++ res.statusText)
  else .ok res.jsonBody

/-- A JavaScript `Error` object as the intake-submit handler inspects
it: only its `message` field is read. -/
structure JSErrorVal where
  message : String

/-- `e.message || String(e)` from the catch block: an `Error` with an
empty message stringifies to the non-empty "Error". -/
def errDisplay (e : JSErrorVal) : String :=
  if e.message.isEmpty then "Error" else e.message

/-- The reactive state touched by `onSubmit`: `loading`, `error` and
`plan` refs. -/
structure UIState where
  loading : Bool
  error : String
  plan : JSVal

/-- Destructuring `const { k } = v`: throws a TypeError when `v` is
null or undefined, otherwise reads the field. -/
def destructureField (v : JSVal) (k : String) : Except JSErrorVal JSVal :=
  match v with
  | .null => .error { message := "TypeError: cannot destructure " ++ k }
  | .undefined => .error { message := "TypeError: cannot destructure " ++ k }
  | _ => .ok (v.getFieldRaw k)

/-- The try-block of `onSubmit`:
`createIntake(form)` then `generatePlanByIntakeId(intake_id)` then
`getPlan(plan_id)`, each step abstracted as a possibly-throwing call. -/
def submitPipeline (createIntakeF : Except JSErrorVal JSVal)
    (generateF : JSVal → Except JSErrorVal JSVal)
    (getPlanF : JSVal → Except JSErrorVal JSVal) : Except JSErrorVal JSVal := do
  let intakeRes ← createIntakeF
  let intakeId ← destructureField intakeRes "intake_id"
  let genRes ← generateF intakeId
  let planId ← destructureField genRes "plan_id"
  getPlanF planId

/-- Embeds `onSubmit` from the plan-view component: resets `error` and
`plan`, sets `loading`, runs the pipeline, stores the plan or the error
message, and clears `loading` in the `finally` block. -/
def onSubmit (createIntakeF : Except JSErrorVal JSVal)
    (generateF : JSVal → Except JSErrorVal JSVal)
    (getPlanF : JSVal → Except JSErrorVal JSVal) : UIState :=
  match submitPipeline createIntakeF generateF getPlanF with
  | .ok p => { loading := false, error := "", plan := p }
  | .error e => { loading := false, error := errDisplay e, plan := .null }

/-- Modelled from the spec: the closed goal enumeration of IntakeProfile
(the backend engine is not in src/). -/
inductive Goal where
  | general_fitness
  | fat_loss
  | muscle_gain
  | strength
deriving DecidableEq

/-- Modelled from the spec: the closed equipment-token enumeration (the
four tokens offered by the intake form). -/
inductive Equip where
  | dumbbells
  | kettlebells
  | bands
  | bodyweight_only
deriving DecidableEq

/-- Modelled from the spec: body-region tokens used by injury_flags and
contraindication sets. -/
inductive Region where
  | knee
  | shoulder
  | lower_back
  | wrist
  | hip
deriving DecidableEq

/-- Modelled from the spec: the normalized IntakeProfile; sets are
lists of enum tokens. -/
structure IntakeProfile where
  goal : Goal
  days_per_week : Nat
  session_length_minutes : Nat
  equipment : List Equip
  injury_flags : List Region
deriving DecidableEq

/-- Modelled from the spec: primary movement patterns used by template
slots and exercise records. -/
inductive Pattern where
  | squat
  | hinge
  | push
  | pull
  | lunge
  | core
deriving DecidableEq

/-- Modelled from the spec: a read-only catalog entry — id, name,
equipment requirement (empty = bodyweight), movement pattern,
contraindicated regions, and default rep/tempo metadata. -/
structure ExerciseRecord where
  id : String
  name : String
  equipment : List Equip
  pattern : Pattern
  contraindicated : List Region
  default_reps : Nat
  default_tempo : String
deriving DecidableEq

/-- Modelled from the spec: an IntakeProfile that passed normalization —
bounds on days and session length, non-empty equipment set. -/
def validProfile (p : IntakeProfile) : Bool :=
  decide (1 ≤ p.days_per_week) && decide (p.days_per_week ≤ 6)
    && decide (15 ≤ p.session_length_minutes) && decide (p.session_length_minutes ≤ 120)
    && !p.equipment.isEmpty

/-- Modelled from the spec: slot eligibility — the record matches the
slot's movement pattern, its equipment requirement is a subset of the
profile's equipment, and its contraindicated regions are disjoint from
injury_flags. -/
def eligible (profile : IntakeProfile) (pat : Pattern) (e : ExerciseRecord) : Bool :=
  e.pattern == pat
    && e.equipment.all (fun q => profile.equipment.contains q)
    && e.contraindicated.all (fun r => !profile.injury_flags.contains r)

/-- Display name of a movement pattern, used in substitution notes. -/
def patternName : Pattern → String
  | .squat => "squat"
  | .hinge => "hinge"
  | .push => "push"
  | .pull => "pull"
  | .lunge => "lunge"
  | .core => "core"

/-- Modelled from the spec: the designated bodyweight fallback per
movement pattern (empty equipment requirement, own contraindications). -/
def bodyweightFallback : Pattern → ExerciseRecord
  | .squat =>
    { id := "bw_squat", name := "Bodyweight Squat", equipment := [], pattern := .squat,
      contraindicated := [.knee], default_reps := 12, default_tempo := "2-0-2" }
  | .hinge =>
    { id := "bw_bridge", name := "Glute Bridge", equipment := [], pattern := .hinge,
      contraindicated := [.lower_back], default_reps := 12, default_tempo := "2-1-2" }
  | .push =>
    { id := "bw_pushup", name := "Push-up", equipment := [], pattern := .push,
      contraindicated := [.shoulder, .wrist], default_reps := 10, default_tempo := "2-0-2" }
  | .pull =>
    { id := "bw_row", name := "Doorway Row", equipment := [], pattern := .pull,
      contraindicated := [.shoulder], default_reps := 10, default_tempo := "2-0-2" }
  | .lunge =>
    { id := "bw_lunge", name := "Reverse Lunge", equipment := [], pattern := .lunge,
      contraindicated := [.knee, .hip], default_reps := 10, default_tempo := "2-0-2" }
  | .core =>
    { id := "bw_plank", name := "Plank", equipment := [], pattern := .core,
      contraindicated := [.lower_back], default_reps := 1, default_tempo := "hold" }

/-- Modelled from the spec: the highest-priority eligible catalog entry;
the catalog list order is the fixed priority list. -/
def selectBest (catalog : List ExerciseRecord) (profile : IntakeProfile)
    (pat : Pattern) : Option ExerciseRecord :=
  catalog.find? (eligible profile pat)

/-- Modelled from the spec: whether the bodyweight fallback for a
pattern is itself free of the profile's injury flags. -/
def fallbackAllowed (profile : IntakeProfile) (pat : Pattern) : Bool :=
  (bodyweightFallback pat).contraindicated.all (fun r => !profile.injury_flags.contains r)

/-- Modelled from the spec: fill one slot — best eligible candidate,
else the bodyweight fallback, else omit the slot with a substitution
note. Returns (selected exercise, note). -/
def selectSlot (catalog : List ExerciseRecord) (profile : IntakeProfile)
    (pat : Pattern) : Option ExerciseRecord × Option String :=
  match selectBest catalog profile pat with
  | some e => (some e, none)
  | none =>
    if fallbackAllowed profile pat then (some (bodyweightFallback pat), none)
    else (none, some ("slot omitted: no safe exercise for pattern " ++ patternName pat))

/-- Modelled from the spec: main-compound slot patterns chosen by the
Template Selector — full-body split for ≤ 3 days/week, upper/lower mix
for ≥ 4; the strength goal uses fewer, heavier slots. -/
def mainPatterns (profile : IntakeProfile) : List Pattern :=
  if profile.days_per_week ≤ 3 then
    match profile.goal with
    | .strength => [.squat, .push, .pull]
    | _ => [.squat, .push, .hinge, .pull]
  else
    match profile.goal with
    | .strength => [.squat, .hinge, .push]
    | _ => [.squat, .hinge, .push, .pull, .lunge]

/-- Modelled from the spec: accessory slot patterns — minimal for
strength, more for fat_loss/general_fitness. -/
def accessoryPatterns (profile : IntakeProfile) : List Pattern :=
  match profile.goal with
  | .strength => [.core]
  | _ => [.lunge, .core]

/-- Modelled from the spec: base main-compound set count per goal (a
named configuration constant the spec leaves to the implementer). -/
def baseSets : Goal → Nat
  | .strength => 4
  | .muscle_gain => 4
  | _ => 3

/-- Modelled from the spec: sets per week (weeks indexed 0–3) — reps
held constant, sets increasing by one per week across weeks 1–3, week 4
a deload below the week-1 sets. -/
def setsForWeek (goal : Goal) (week : Nat) : Nat :=
  if week ≤ 2 then baseSets goal + week else baseSets goal - 1

/-- Modelled from the spec: rest prescription per goal (shorter rest
for fat_loss/general_fitness). -/
def restForGoal : Goal → String
  | .strength => "150s"
  | .muscle_gain => "90s"
  | .fat_loss => "45s"
  | .general_fitness => "60s"

/-- One main_sets entry of a PlanStructure week:
{exercise, sets, reps, tempo, rest}. -/
structure MainSetEntry where
  exercise : String
  sets : Nat
  reps : Nat
  tempo : String
  rest : String
deriving DecidableEq

/-- Modelled from the spec: the Progressive Overload Scheduler's output
for one selected exercise in one week. -/
def scheduleMainSet (goal : Goal) (week : Nat) (e : ExerciseRecord) : MainSetEntry :=
  { exercise := e.name, sets := setsForWeek goal week, reps := e.default_reps,
    tempo := e.default_tempo, rest := restForGoal goal }

/-- A Week entry of PlanStructure: warmup, main_sets, accessories,
notes. -/
structure WeekEntry where
  warmup : List String
  main_sets : List MainSetEntry
  accessories : List String
  notes : String
deriving DecidableEq

/-- The canonical output artifact: an ordered sequence of Week
entries. -/
structure PlanStructure where
  weeks : List WeekEntry
deriving DecidableEq

/-- Modelled from the spec: the exercises filling the main-compound
slots (slots whose selection failed are omitted). -/
def selectedMain (catalog : List ExerciseRecord) (profile : IntakeProfile) :
    List ExerciseRecord :=
  (mainPatterns profile).filterMap (fun pat => (selectSlot catalog profile pat).1)

/-- Modelled from the spec: the exercises filling the accessory
slots. -/
def selectedAccessories (catalog : List ExerciseRecord) (profile : IntakeProfile) :
    List ExerciseRecord :=
  (accessoryPatterns profile).filterMap (fun pat => (selectSlot catalog profile pat).1)

/-- Modelled from the spec: substitution notes for omitted slots,
attached to each week's notes field. -/
def substitutionNotes (catalog : List ExerciseRecord) (profile : IntakeProfile) :
    List String :=
  (mainPatterns profile ++ accessoryPatterns profile).filterMap
    (fun pat => (selectSlot catalog profile pat).2)

/-- Modelled from the spec: a fixed non-empty warm-up block. -/
def warmupFor (goal : Goal) : List String :=
  match goal with
  | .strength => ["5 min easy cardio", "empty-bar ramp-up"]
  | _ => ["5 min easy cardio", "dynamic mobility circuit"]

/-- Modelled from the spec: assemble one Week entry — the same selected
exercises every week, scheduled per week by the overload scheduler. -/
def buildWeek (catalog : List ExerciseRecord) (profile : IntakeProfile)
    (week : Nat) : WeekEntry :=
  { warmup := warmupFor profile.goal
    main_sets := (selectedMain catalog profile).map (scheduleMainSet profile.goal week)
    accessories := (selectedAccessories catalog profile).map (fun e => e.name)
    notes := String.intercalate "; "
      (if week == 3 then "deload week" :: substitutionNotes catalog profile
       else substitutionNotes catalog profile) }

/-- Modelled from the spec: the deterministic generation pipeline —
Template Selector, Exercise Engine and Scheduler assembling the fixed
4-week PlanStructure. -/
def generatePlan (catalog : List ExerciseRecord) (profile : IntakeProfile) :
    PlanStructure :=
  { weeks := (List.range 4).map (buildWeek catalog profile) }

/-- One itemized rule failure: {rule_id, severity, message}. -/
structure Violation where
  rule_id : String
  severity : String
  message : String
deriving DecidableEq

/-- The Plan Validator's output: pass flag plus collected violations. -/
structure ValidationResult where
  pass : Bool
  violations : List Violation
deriving DecidableEq

/-- Look an exercise up in the reference catalog by display name. -/
def lookupExercise (catalog : List ExerciseRecord) (nm : String) :
    Option ExerciseRecord :=
  catalog.find? (fun e => e.name == nm)

/-- All exercise names referenced by a week (main_sets and
accessories). -/
def weekExerciseNames (w : WeekEntry) : List String :=
  w.main_sets.map (fun m => m.exercise) ++ w.accessories

/-- Modelled from the spec, §4.5 rule 1: every week has a non-empty
warm-up and a non-empty main_sets list. -/
def ruleWarmupMain (ps : PlanStructure) : Bool :=
  ps.weeks.all (fun w => !w.warmup.isEmpty && !w.main_sets.isEmpty)

/-- Modelled from the spec, §4.5 rule 2: no referenced exercise has a
contraindicated region among the client's injury_flags (catalog
lookup by name; names outside the catalog carry no region data). -/
def ruleInjury (catalog : List ExerciseRecord) (ps : PlanStructure)
    (profile : IntakeProfile) : Bool :=
  ps.weeks.all (fun w => (weekExerciseNames w).all (fun nm =>
    match lookupExercise catalog nm with
    | some e => e.contraindicated.all (fun r => !profile.injury_flags.contains r)
    | none => true))

/-- Modelled from the spec: the fixed per-set time constant, in
minutes (a named configuration constant). -/
def perSetMinutes : Nat := 3

/-- Modelled from the spec: fixed warm-up/cooldown overhead, in
minutes. -/
def overheadMinutes : Nat := 10

/-- Modelled from the spec: the duration tolerance, in percent. -/
def durationTolerancePercent : Nat := 10

/-- Modelled from the spec: estimated session duration — total set
count × per-set constant + fixed overhead. -/
def estimatedDuration (w : WeekEntry) : Nat :=
  (w.main_sets.foldl (fun acc m => acc + m.sets) 0) * perSetMinutes + overheadMinutes

/-- Modelled from the spec, §4.5 rule 3: estimated duration does not
exceed session_length_minutes by more than the tolerance (compared in
integer arithmetic: duration·100 ≤ minutes·110). -/
def ruleDuration (ps : PlanStructure) (profile : IntakeProfile) : Bool :=
  ps.weeks.all (fun w =>
    estimatedDuration w * 100 ≤ profile.session_length_minutes * (100 + durationTolerancePercent))

/-- Total main-set volume (sets × reps) a week assigns to one exercise
name. -/
def weekVolumeFor (w : WeekEntry) (nm : String) : Nat :=
  w.main_sets.foldl (fun acc m => if m.exercise == nm then acc + m.sets * m.reps else acc) 0

/-- Modelled from the spec, §4.5 rule 4: per exercise, week-4 volume ≤
week-1 volume (vacuously true when the plan has fewer than 4 weeks). -/
def ruleDeload (ps : PlanStructure) : Bool :=
  match ps.weeks.get? 0, ps.weeks.get? 3 with
  | some w1, some w4 =>
    (w4.main_sets.map (fun m => m.exercise)).all
      (fun nm => weekVolumeFor w4 nm ≤ weekVolumeFor w1 nm)
  | _, _ => true

/-- Modelled from the spec, §4.5 rule 5: equipment referenced by any
selected exercise is a subset of the profile's equipment. -/
def ruleEquipment (catalog : List ExerciseRecord) (ps : PlanStructure)
    (profile : IntakeProfile) : Bool :=
  ps.weeks.all (fun w => (weekExerciseNames w).all (fun nm =>
    match lookupExercise catalog nm with
    | some e => e.equipment.all (fun q => profile.equipment.contains q)
    | none => true))

/-- Modelled from the spec: the five §4.5 rules, each evaluated
independently, tagged with its rule id. -/
def ruleChecks (catalog : List ExerciseRecord) (ps : PlanStructure)
    (profile : IntakeProfile) : List (String × Bool) :=
  [ ("R1_warmup_main_nonempty", ruleWarmupMain ps)
  , ("R2_injury_excluded", ruleInjury catalog ps profile)
  , ("R3_session_duration", ruleDuration ps profile)
  , ("R4_deload_volume", ruleDeload ps)
  , ("R5_equipment_subset", ruleEquipment catalog ps profile) ]

/-- Modelled from the spec: the Plan Validator — all violations
collected, never short-circuited; a plan with zero violations
passes. -/
def validate (catalog : List ExerciseRecord) (ps : PlanStructure)
    (profile : IntakeProfile) : ValidationResult :=
  let vs := (ruleChecks catalog ps profile).filterMap (fun c =>
    if c.2 then none
    else some { rule_id := c.1, severity := "error", message := "rule violated: " ++ c.1 })
  { pass := vs.isEmpty, violations := vs }

/-- The plan lifecycle status, matching the schema comment
`draft|approved|sent` on plans.status. -/
inductive Status where
  | draft
  | approved
  | sent
deriving DecidableEq

/-- The Plan lifecycle entity of the plans table: id, owning client,
structure document, status. -/
structure Plan where
  id : String
  client_id : String
  structure_json : PlanStructure
  status : Status

/-- Why an approval attempt was rejected: failing validation (carrying
the violation list), missing trainer action, or a wrong source
state. -/
inductive Rejection where
  | validationFailed (violations : List Violation)
  | trainerNotApproved
  | illegalTransition

/-- Modelled from the spec: the draft→approved transition — requires
status draft, ValidationResult.pass = true and an explicit
trainer-approval action; otherwise the plan is returned unchanged with a
rejection (a failing validation carries its violation list). -/
def approvePlan (pl : Plan) (vr : ValidationResult) (trainerApproved : Bool) :
    Plan × Option Rejection :=
  match pl.status with
  | .draft =>
    if vr.pass then
      if trainerApproved then ({ pl with status := .approved }, none)
      else (pl, some .trainerNotApproved)
    else (pl, some (.validationFailed vr.violations))
  | _ => (pl, some .illegalTransition)

/-- Modelled from the spec: the approved→sent transition, triggered
only by successful external delivery confirmation. -/
def sendPlan (pl : Plan) (deliveryConfirmed : Bool) : Plan :=
  match pl.status with
  | .approved => if deliveryConfirmed then { pl with status := .sent } else pl
  | _ => pl

/-- Modelled from the spec: redelivery of an already-sent plan —
idempotent, and never re-triggers generation. Returns the plan after
the attempt and whether generation was triggered. -/
def redeliverPlan (pl : Plan) : Plan × Bool :=
  (pl, false)

/-- Modelled from the spec: regeneration creates a new draft Plan for
the same client and never mutates the existing one. Returns (existing
plan untouched, new plan). -/
def regeneratePlan (pl : Plan) (newId : String) (catalog : List ExerciseRecord)
    (profile : IntakeProfile) : Plan × Plan :=
  (pl, { id := newId, client_id := pl.client_id,
         structure_json := generatePlan catalog profile, status := .draft })

/-- The operations the lifecycle exposes on an existing plan. -/
inductive PlanOp where
  | approveOp (vr : ValidationResult) (trainerApproved : Bool)
  | sendOp (deliveryConfirmed : Bool)
  | redeliverOp
  | regenerateOp (newId : String) (catalog : List ExerciseRecord) (profile : IntakeProfile)

/-- Effect of one lifecycle operation on an existing plan record. -/
def applyOp (op : PlanOp) (pl : Plan) : Plan :=
  match op with
  | .approveOp vr t => (approvePlan pl vr t).1
  | .sendOp c => sendPlan pl c
  | .redeliverOp => (redeliverPlan pl).1
  | .regenerateOp newId catalog profile => (regeneratePlan pl newId catalog profile).1

/-- Whether a lifecycle operation triggers plan generation. -/
def opTriggersGeneration (op : PlanOp) : Bool :=
  match op with
  | .regenerateOp _ _ _ => true
  | _ => false

/-- Position of a status along draft → approved → sent. -/
def statusRank : Status → Nat
  | .draft => 0
  | .approved => 1
  | .sent => 2

/-- C8: for every HTTP response, `jsonFetch` returns the parsed JSON
body exactly when `res.ok` is true; when `res.ok` is false it never
returns a value and instead throws an Error whose message contains the
status code and the status text. -/
theorem jsonFetch_ok_body_error_status (res : JSResponse) :
    (res.ok = true → jsonFetch res = .ok res.jsonBody) ∧
    (res.ok = false → ∃ msg, jsonFetch res = .error msg ∧
      (∃ a b, msg = a ++ toString res.status ++ b) ∧
      (∃ c d, msg = c ++ res.statusText ++ d)) := by
  constructor
  · intro h
    simp [jsonFetch, h]
  · intro h
    refine ⟨toString res.status ++ " " ++ res.statusText, by simp [jsonFetch, h],
      ⟨"", " " ++ res.statusText, ?_⟩, ⟨toString res.status ++ " ", "", ?_⟩⟩
    · rw [String.empty_append, String.append_assoc]
    · rw [String.append_empty]

/-- Witness for C8 at a concrete failing response. -/
theorem jsonFetch_ok_body_error_status_witness :
    ∃ msg, jsonFetch { ok := false, status := 404, statusText := "Not Found", jsonBody := .null } = .error msg ∧
      (∃ a b, msg = a ++ toString (404 : Nat) ++ b) ∧
      (∃ c d, msg = c ++ "Not Found" ++ d) :=
  (jsonFetch_ok_body_error_status
    { ok := false, status := 404, statusText := "Not Found", jsonBody := .null }).2 rfl

/-- C10: after every completion of `onSubmit` the loading flag is
false; and whenever any step of the pipeline throws, `plan` remains
null and `error` holds a non-empty message. -/
theorem onSubmit_loading_error_plan (c : Except JSErrorVal JSVal)
    (g h : JSVal → Except JSErrorVal JSVal) :
    (onSubmit c g h).loading = false ∧
    (∀ e, submitPipeline c g h = .error e →
      (onSubmit c g h).plan = .null ∧ (onSubmit c g h).error ≠ "") := by
  constructor
  · unfold onSubmit
    cases submitPipeline c g h <;> rfl
  · intro e he
    unfold onSubmit
    rw [he]
    refine ⟨rfl, ?_⟩
    show errDisplay e ≠ ""
    unfold errDisplay
    split
    · decide
    · rename_i hm
      intro hcontra
      rw [hcontra] at hm
      exact hm rfl

/-- Witness for C10 at a pipeline whose first step throws. -/
theorem onSubmit_loading_error_plan_witness :
    (onSubmit (.error { message := "boom" }) (fun _ => .ok .null) (fun _ => .ok .null)).plan = .null ∧
    (onSubmit (.error { message := "boom" }) (fun _ => .ok .null) (fun _ => .ok .null)).error ≠ "" :=
  (onSubmit_loading_error_plan (.error { message := "boom" })
    (fun _ => .ok .null) (fun _ => .ok .null)).2 { message := "boom" } rfl

/-- A concrete normalized profile (the spec's §8 scenario: fat_loss,
3 days/week, 45-minute sessions, dumbbells, no injuries), used as a
sample input by witnesses. -/
def demoProfile : IntakeProfile :=
  { goal := .fat_loss, days_per_week := 3, session_length_minutes := 45,
    equipment := [.dumbbells], injury_flags := [] }

/-- C5: generation is deterministic — two runs on an identical
IntakeProfile and an identical catalog snapshot produce identical
PlanStructure values (the modelled pipeline is a pure function of
exactly these two inputs). -/
theorem generatePlan_deterministic (c₁ c₂ : List ExerciseRecord)
    (p₁ p₂ : IntakeProfile) (hc : c₁ = c₂) (hp : p₁ = p₂) :
    generatePlan c₁ p₁ = generatePlan c₂ p₂ := by
  rw [hc, hp]

/-- Witness for C5 at a concrete profile and catalog. -/
theorem generatePlan_deterministic_witness :
    generatePlan [] demoProfile = generatePlan [] demoProfile :=
  generatePlan_deterministic [] [] demoProfile demoProfile rfl rfl

/-- C6: for every valid IntakeProfile, the generated PlanStructure
contains exactly 4 Week entries. -/
theorem generatePlan_four_weeks (catalog : List ExerciseRecord)
    (p : IntakeProfile) (_h : validProfile p = true) :
    (generatePlan catalog p).weeks.length = 4 := by
  simp [generatePlan]

/-- Witness for C6 at a concrete valid profile. -/
theorem generatePlan_four_weeks_witness :
    validProfile demoProfile = true ∧
    (generatePlan [] demoProfile).weeks.length = 4 :=
  ⟨by decide, generatePlan_four_weeks [] demoProfile (by decide)⟩

/-- C4: attempting draft→approved with a failing ValidationResult
always yields a rejection carrying the violation list and returns the
plan unchanged in draft; approval succeeds only with pass = true plus
an explicit trainer-approval action. -/
theorem approvePlan_gated (pl : Plan) (vr : ValidationResult) (t : Bool) :
    (pl.status = .draft → vr.pass = false →
      approvePlan pl vr t = (pl, some (.validationFailed vr.violations))) ∧
    ((approvePlan pl vr t).2 = none →
      pl.status = .draft ∧ vr.pass = true ∧ t = true ∧
      (approvePlan pl vr t).1 = { pl with status := .approved }) := by
  constructor
  · intro hs hv
    simp [approvePlan, hs, hv]
  · intro hnone
    cases hs : pl.status <;> rw [approvePlan] at hnone <;> simp [hs] at hnone ⊢
    cases hv : vr.pass <;> cases ht : t <;> simp [hv, ht] at hnone ⊢
    simp [approvePlan, hs, hv, ht]

/-- No single lifecycle operation lowers a plan's status rank. -/
theorem statusRank_le_applyOp (op : PlanOp) (pl : Plan) :
    statusRank pl.status ≤ statusRank (applyOp op pl).status := by
  cases op with
  | approveOp vr t =>
    cases hs : pl.status <;> simp [applyOp, approvePlan, hs, statusRank]
  | sendOp c =>
    cases hs : pl.status <;> cases c <;> simp [applyOp, sendPlan, hs, statusRank]
  | redeliverOp => simp [applyOp, redeliverPlan]
  | regenerateOp newId catalog profile => simp [applyOp, regeneratePlan]

/-- A sent plan is a fixed point of every lifecycle operation. -/
theorem applyOp_sent_fixed (op : PlanOp) (pl : Plan) (hs : pl.status = .sent) :
    applyOp op pl = pl := by
  cases op with
  | approveOp vr t => simp [applyOp, approvePlan, hs]
  | sendOp c => simp [applyOp, sendPlan, hs]
  | redeliverOp => rfl
  | regenerateOp newId catalog profile => rfl

/-- C7: plan status never moves backward along draft → approved → sent
under any sequence of approve/send/redeliver/regenerate operations;
sent is terminal; and redelivery of an already-sent plan is idempotent
and does not re-trigger generation. -/
theorem planStatus_never_regresses (pl : Plan) :
    (∀ ops : List PlanOp,
      statusRank pl.status ≤ statusRank ((ops.foldl (fun q o => applyOp o q) pl).status)) ∧
    (pl.status = .sent → ∀ op, applyOp op pl = pl) ∧
    (pl.status = .sent → redeliverPlan pl = (pl, false)) ∧
    opTriggersGeneration .redeliverOp = false := by
  refine ⟨?_, ?_, fun _ => rfl, rfl⟩
  · intro ops
    induction ops generalizing pl with
    | nil => exact Nat.le_refl _
    | cons op ops ih =>
      exact Nat.le_trans (statusRank_le_applyOp op pl) (ih (applyOp op pl))
  · intro hs op
    exact applyOp_sent_fixed op pl hs

/-- Witness for C7 at a concrete sent plan and operation sequence. -/
theorem planStatus_never_regresses_witness :
    let pl : Plan := { id := "p1", client_id := "c1",
                       structure_json := generatePlan [] demoProfile, status := .sent }
    pl.status = .sent ∧ ∀ op, applyOp op pl = pl :=
  ⟨rfl, (planStatus_never_regresses _).2.1 rfl⟩

/-- Pointwise-larger per-exercise increments give a larger volume
fold. -/
theorem foldl_volume_mono (nm : String) (k₁ k₂ : ExerciseRecord → Nat)
    (hk : ∀ e, k₁ e ≤ k₂ e) :
    ∀ (l : List ExerciseRecord) (a₁ a₂ : Nat), a₁ ≤ a₂ →
      l.foldl (fun acc e => if e.name == nm then acc + k₁ e else acc) a₁ ≤
      l.foldl (fun acc e => if e.name == nm then acc + k₂ e else acc) a₂ := by
  intro l
  induction l with
  | nil => intro a₁ a₂ h; exact h
  | cons e l ih =>
    intro a₁ a₂ h
    simp only [List.foldl_cons]
    apply ih
    by_cases hc : (e.name == nm) = true
    · simp only [hc, if_true]
      exact Nat.add_le_add h (hk e)
    · simp only [hc, if_false]
      exact h

/-- The per-exercise volume of a generated week, expressed over the
selected exercises. -/
theorem weekVolumeFor_buildWeek (catalog : List ExerciseRecord) (p : IntakeProfile)
    (w : Nat) (nm : String) :
    weekVolumeFor (buildWeek catalog p w) nm =
      (selectedMain catalog p).foldl
        (fun acc e =>
          if e.name == nm then acc + setsForWeek p.goal w * e.default_reps else acc) 0 := by
  unfold weekVolumeFor buildWeek
  rw [List.foldl_map]
  simp only [scheduleMainSet]

/-- The scheduler's set counts: week 4 (index 3) below week 1
(index 0), weeks 1–3 non-decreasing. -/
theorem setsForWeek_progression (g : Goal) :
    setsForWeek g 3 ≤ setsForWeek g 0 ∧ setsForWeek g 0 ≤ setsForWeek g 1 ∧
    setsForWeek g 1 ≤ setsForWeek g 2 := by
  simp [setsForWeek]

/-- C2: in every generated plan, per-exercise week-4 volume is at most
week-1 volume (deload), and per-exercise volume is non-decreasing
across weeks 1–3. -/
theorem generatePlan_progression_deload (catalog : List ExerciseRecord)
    (p : IntakeProfile) :
    (generatePlan catalog p).weeks =
      [buildWeek catalog p 0, buildWeek catalog p 1,
       buildWeek catalog p 2, buildWeek catalog p 3] ∧
    ∀ nm : String,
      weekVolumeFor (buildWeek catalog p 3) nm ≤ weekVolumeFor (buildWeek catalog p 0) nm ∧
      weekVolumeFor (buildWeek catalog p 0) nm ≤ weekVolumeFor (buildWeek catalog p 1) nm ∧
      weekVolumeFor (buildWeek catalog p 1) nm ≤ weekVolumeFor (buildWeek catalog p 2) nm := by
  constructor
  · rfl
  · intro nm
    have h := setsForWeek_progression p.goal
    refine ⟨?_, ?_, ?_⟩ <;> rw [weekVolumeFor_buildWeek, weekVolumeFor_buildWeek]
    · exact foldl_volume_mono nm _ _
        (fun e => Nat.mul_le_mul h.1 (Nat.le_refl _)) _ 0 0 (Nat.le_refl 0)
    · exact foldl_volume_mono nm _ _
        (fun e => Nat.mul_le_mul h.2.1 (Nat.le_refl _)) _ 0 0 (Nat.le_refl 0)
    · exact foldl_volume_mono nm _ _
        (fun e => Nat.mul_le_mul h.2.2 (Nat.le_refl _)) _ 0 0 (Nat.le_refl 0)

/-- An eligible exercise has no contraindicated region among the
profile's injury flags. -/
theorem eligible_contraindicated_disjoint (p : IntakeProfile) (pat : Pattern)
    (e : ExerciseRecord) (h : eligible p pat e = true) :
    ∀ r ∈ e.contraindicated, r ∉ p.injury_flags := by
  intro r hr
  unfold eligible at h
  simp only [Bool.and_eq_true, List.all_eq_true] at h
  have hdis := h.2 r hr
  simpa using hdis

/-- An admitted bodyweight fallback has no contraindicated region among
the profile's injury flags. -/
theorem fallbackAllowed_disjoint (p : IntakeProfile) (pat : Pattern)
    (h : fallbackAllowed p pat = true) :
    ∀ r ∈ (bodyweightFallback pat).contraindicated, r ∉ p.injury_flags := by
  intro r hr
  unfold fallbackAllowed at h
  rw [List.all_eq_true] at h
  have hdis := h r hr
  simpa using hdis

/-- Whatever `selectSlot` puts into a slot is free of the profile's
injury flags. -/
theorem selectSlot_safe (catalog : List ExerciseRecord) (p : IntakeProfile)
    (pat : Pattern) (e : ExerciseRecord)
    (h : (selectSlot catalog p pat).1 = some e) :
    ∀ r ∈ e.contraindicated, r ∉ p.injury_flags := by
  unfold selectSlot at h
  cases hf : selectBest catalog p pat with
  | some e' =>
    rw [hf] at h
    simp only [Option.some.injEq] at h
    subst h
    exact eligible_contraindicated_disjoint p pat e' (List.find?_some hf)
  | none =>
    rw [hf] at h
    by_cases hfb : fallbackAllowed p pat
    · simp only [hfb, if_true, Option.some.injEq] at h
      subst h
      exact fallbackAllowed_disjoint p pat hfb
    · simp [hfb] at h

/-- Every exercise filling a main slot is free of the profile's injury
flags. -/
theorem selectedMain_safe (catalog : List ExerciseRecord) (p : IntakeProfile)
    (e : ExerciseRecord) (he : e ∈ selectedMain catalog p) :
    ∀ r ∈ e.contraindicated, r ∉ p.injury_flags := by
  unfold selectedMain at he
  rw [List.mem_filterMap] at he
  obtain ⟨pat, _, hsel⟩ := he
  exact selectSlot_safe catalog p pat e hsel

/-- Every exercise filling an accessory slot is free of the profile's
injury flags. -/
theorem selectedAccessories_safe (catalog : List ExerciseRecord) (p : IntakeProfile)
    (e : ExerciseRecord) (he : e ∈ selectedAccessories catalog p) :
    ∀ r ∈ e.contraindicated, r ∉ p.injury_flags := by
  unfold selectedAccessories at he
  rw [List.mem_filterMap] at he
  obtain ⟨pat, _, hsel⟩ := he
  exact selectSlot_safe catalog p pat e hsel

/-- C1: in every generated plan, every exercise occupying any main or
accessory slot of any week comes from the selection engine and its
contraindicated-region set is disjoint from the profile's
injury_flags — with no override path. -/
theorem generatePlan_no_contraindicated (catalog : List ExerciseRecord)
    (p : IntakeProfile) :
    ∀ w ∈ (generatePlan catalog p).weeks,
      (∀ m ∈ w.main_sets, ∃ e ∈ selectedMain catalog p,
        m.exercise = e.name ∧ ∀ r ∈ e.contraindicated, r ∉ p.injury_flags) ∧
      (∀ nm ∈ w.accessories, ∃ e ∈ selectedAccessories catalog p,
        nm = e.name ∧ ∀ r ∈ e.contraindicated, r ∉ p.injury_flags) := by
  intro w hw
  unfold generatePlan at hw
  simp only [List.mem_map] at hw
  obtain ⟨i, _, hwi⟩ := hw
  constructor
  · intro m hm
    rw [← hwi] at hm
    unfold buildWeek at hm
    simp only [List.mem_map] at hm
    obtain ⟨e, he, hme⟩ := hm
    refine ⟨e, he, ?_, selectedMain_safe catalog p e he⟩
    rw [← hme]
    rfl
  · intro nm hnm
    rw [← hwi] at hnm
    unfold buildWeek at hnm
    simp only [List.mem_map] at hnm
    obtain ⟨e, he, hne⟩ := hnm
    exact ⟨e, he, hne.symm, selectedAccessories_safe catalog p e he⟩

/-- Witness for C1 at a concrete profile and an empty catalog (slots
filled by bodyweight fallbacks). -/
theorem generatePlan_no_contraindicated_witness :
    ∃ e ∈ selectedMain [] demoProfile,
      (scheduleMainSet Goal.fat_loss 0 (bodyweightFallback Pattern.squat)).exercise = e.name ∧
      ∀ r ∈ e.contraindicated, r ∉ demoProfile.injury_flags :=
  (generatePlan_no_contraindicated [] demoProfile
      (buildWeek [] demoProfile 0)
      (List.mem_map_of_mem (buildWeek [] demoProfile) (by decide))).1
    (scheduleMainSet Goal.fat_loss 0 (bodyweightFallback Pattern.squat)) (by decide)

/-- C3: the Plan Validator passes exactly when the violations list is
empty; the pass flag is the independent conjunction of the five §4.5
rules; and every violated rule contributes its rule_id to the
violations list. -/
theorem validate_pass_iff_no_violation (catalog : List ExerciseRecord)
    (ps : PlanStructure) (p : IntakeProfile) :
    ((validate catalog ps p).pass = true ↔ (validate catalog ps p).violations = []) ∧
    ((validate catalog ps p).pass = true ↔
      ruleWarmupMain ps = true ∧ ruleInjury catalog ps p = true ∧
      ruleDuration ps p = true ∧ ruleDeload ps = true ∧
      ruleEquipment catalog ps p = true) ∧
    (ruleWarmupMain ps = false →
      "R1_warmup_main_nonempty" ∈ (validate catalog ps p).violations.map (fun v => v.rule_id)) ∧
    (ruleInjury catalog ps p = false →
      "R2_injury_excluded" ∈ (validate catalog ps p).violations.map (fun v => v.rule_id)) ∧
    (ruleDuration ps p = false →
      "R3_session_duration" ∈ (validate catalog ps p).violations.map (fun v => v.rule_id)) ∧
    (ruleDeload ps = false →
      "R4_deload_volume" ∈ (validate catalog ps p).violations.map (fun v => v.rule_id)) ∧
    (ruleEquipment catalog ps p = false →
      "R5_equipment_subset" ∈ (validate catalog ps p).violations.map (fun v => v.rule_id)) := by
  cases h1 : ruleWarmupMain ps <;>
    cases h2 : ruleInjury catalog ps p <;>
      cases h3 : ruleDuration ps p <;>
        cases h4 : ruleDeload ps <;>
          cases h5 : ruleEquipment catalog ps p <;>
            simp [validate, ruleChecks, h1, h2, h3, h4, h5]

/-- Witness for C3 at a plan with an empty warm-up week. -/
theorem validate_pass_iff_no_violation_witness :
    "R1_warmup_main_nonempty" ∈
      (validate [] { weeks := [{ warmup := [], main_sets := [], accessories := [], notes := "" }] }
          demoProfile).violations.map (fun v => v.rule_id) :=
  (validate_pass_iff_no_violation []
      { weeks := [{ warmup := [], main_sets := [], accessories := [], notes := "" }] }
      demoProfile).2.2.1 (by decide)

/-- A value that an `||` display chain either yields as a string or
skips over (falsy). -/
def strOrFalsy (v : JSVal) : Bool := v.typeofIsString || !v.truthy

/-- An array element whose normalized exercise field can only be a
string: it is itself a string, or each of its exercise/name/title
fields is a string or falsy. -/
def goodRowSource (o : JSVal) : Bool :=
  o.typeofIsString ||
    (strOrFalsy (o.getFieldRaw "exercise") && strOrFalsy (o.getFieldRaw "name")
      && strOrFalsy (o.getFieldRaw "title"))

/-- `a || b` is a string when `a` is a string or falsy and `b` is a
string. -/
theorem jsOr_string (a b : JSVal) (ha : strOrFalsy a = true)
    (hb : b.typeofIsString = true) : (jsOr a b).typeofIsString = true := by
  unfold jsOr
  cases ht : a.truthy
  · simp only [if_false, Bool.false_eq_true]
    exact hb
  · simp only [if_true]
    unfold strOrFalsy at ha
    rw [ht] at ha
    simpa using ha

/-- The normalized exercise chain produces a string on a good
non-string element. -/
theorem exercise_chain_string (o : JSVal) (hs : o.typeofIsString = false)
    (hg : goodRowSource o = true) :
    (jsOr (o.getFieldRaw "exercise")
      (jsOr (o.getFieldRaw "name")
        (jsOr (o.getFieldRaw "title") (.str "—")))).typeofIsString = true := by
  unfold goodRowSource at hg
  rw [hs] at hg
  simp only [Bool.false_or, Bool.and_eq_true] at hg
  exact jsOr_string _ _ hg.1.1 (jsOr_string _ _ hg.1.2 (jsOr_string _ _ hg.2 rfl))

/-- `normalizeRow` succeeds on every non-nullish element, and yields a
string exercise field on good elements. -/
theorem normalizeRow_ok_of_notNullish (o : JSVal) (h : o.notNullish = true) :
    ∃ r, normalizeRow o = .ok r ∧
      (goodRowSource o = true → r.exercise.typeofIsString = true) := by
  cases o with
  | null => simp [JSVal.notNullish] at h
  | undefined => simp [JSVal.notNullish] at h
  | str s => exact ⟨_, rfl, fun _ => rfl⟩
  | bool b => exact ⟨_, rfl, fun hg => exercise_chain_string (.bool b) rfl hg⟩
  | num n => exact ⟨_, rfl, fun hg => exercise_chain_string (.num n) rfl hg⟩
  | arr xs => exact ⟨_, rfl, fun hg => exercise_chain_string (.arr xs) rfl hg⟩
  | obj fs => exact ⟨_, rfl, fun hg => exercise_chain_string (.obj fs) rfl hg⟩

/-- Mapping `normalizeRow` over an array with no nullish element
succeeds, with string exercise fields on good elements. -/
theorem mapExcept_normalizeRow_ok (xs : List JSVal)
    (h : xs.all JSVal.notNullish = true) :
    ∃ rs, mapExcept normalizeRow xs = .ok rs ∧
      (xs.all goodRowSource = true → ∀ r ∈ rs, r.exercise.typeofIsString = true) := by
  induction xs with
  | nil => exact ⟨[], rfl, fun _ r hr => absurd hr (List.not_mem_nil r)⟩
  | cons x xs ih =>
    rw [List.all_cons, Bool.and_eq_true] at h
    obtain ⟨r, hr, hrs⟩ := normalizeRow_ok_of_notNullish x h.1
    obtain ⟨rs, hmap, hgood⟩ := ih h.2
    refine ⟨r :: rs, ?_, ?_⟩
    · unfold mapExcept
      rw [hr, hmap]
    · intro hall y hy
      rw [List.all_cons, Bool.and_eq_true] at hall
      rcases List.mem_cons.mp hy with h' | h'
      · rw [h']
        exact hrs hall.1
      · exact hgood hall.2 y h'

/-- `toListDisplay` succeeds on every non-nullish element. -/
theorem toListDisplay_ok_of_notNullish (o : JSVal) (h : o.notNullish = true) :
    ∃ d, toListDisplay o = .ok d := by
  cases o with
  | null => simp [JSVal.notNullish] at h
  | undefined => simp [JSVal.notNullish] at h
  | str s => exact ⟨_, rfl⟩
  | bool b => exact ⟨_, rfl⟩
  | num n => exact ⟨_, rfl⟩
  | arr xs => exact ⟨_, rfl⟩
  | obj fs => exact ⟨_, rfl⟩

/-- Mapping `toListDisplay` over an array with no nullish element
succeeds. -/
theorem mapExcept_toListDisplay_ok (xs : List JSVal)
    (h : xs.all JSVal.notNullish = true) :
    ∃ ys, mapExcept toListDisplay xs = .ok ys := by
  induction xs with
  | nil => exact ⟨[], rfl⟩
  | cons x xs ih =>
    rw [List.all_cons, Bool.and_eq_true] at h
    obtain ⟨y, hy⟩ := toListDisplay_ok_of_notNullish x h.1
    obtain ⟨ys, hys⟩ := ih h.2
    refine ⟨y :: ys, ?_⟩
    unfold mapExcept
    rw [hy, hys]

/-- `toList` succeeds on every array with no nullish element. -/
theorem toList_ok_of_notNullish (xs : List JSVal)
    (h : xs.all JSVal.notNullish = true) :
    ∃ ys, toList (.arr xs) = .ok ys := by
  obtain ⟨zs, hzs⟩ := mapExcept_toListDisplay_ok xs h
  simp only [toList]
  split_ifs with hA hB hC
  · exact ⟨[], rfl⟩
  · exact ⟨xs, rfl⟩
  · exact ⟨zs, hzs⟩
  · exact ⟨[], rfl⟩

/-- `toList` and `normalizeMain` return `[]` on every non-array. -/
theorem toList_normalizeMain_nonarray (v : JSVal) (h : ∀ xs, v ≠ .arr xs) :
    toList v = .ok [] ∧ normalizeMain v = .ok [] := by
  cases v with
  | arr xs => exact absurd rfl (h xs)
  | null => exact ⟨rfl, rfl⟩
  | undefined => exact ⟨rfl, rfl⟩
  | bool b =>
    refine ⟨?_, rfl⟩
    unfold toList
    split <;> rfl
  | num n =>
    refine ⟨?_, rfl⟩
    unfold toList
    split <;> rfl
  | str s =>
    refine ⟨?_, rfl⟩
    unfold toList
    split <;> rfl
  | obj fs => exact ⟨rfl, rfl⟩

/-- C9 (amended): `toList` and `normalizeMain` map every non-array
(including null/undefined) to the empty array, and return an array
without throwing on every array none of whose elements is
null/undefined; every element of `normalizeMain`'s result has a string
exercise field provided each array element is a string or has only
string-or-falsy exercise/name/title fields. -/
theorem toList_normalizeMain_total (v : JSVal) :
    ((∀ xs, v ≠ .arr xs) → toList v = .ok [] ∧ normalizeMain v = .ok []) ∧
    (∀ xs, v = .arr xs → xs.all JSVal.notNullish = true →
      (∃ ys, toList v = .ok ys) ∧
      ∃ rs, normalizeMain v = .ok rs ∧
        (xs.all goodRowSource = true → ∀ r ∈ rs, r.exercise.typeofIsString = true)) := by
  constructor
  · exact toList_normalizeMain_nonarray v
  · intro xs hv hall
    rw [hv]
    exact ⟨toList_ok_of_notNullish xs hall, mapExcept_normalizeRow_ok xs hall⟩

/-- Witness for C9 at a concrete well-behaved array. -/
theorem toList_normalizeMain_total_witness :
    ∃ ys, toList (.arr [.str "Squat"]) = .ok ys :=
  ((toList_normalizeMain_total (.arr [.str "Squat"])).2
    [.str "Squat"] rfl (by decide)).1

/-- Counterexample for C9 as stated: a null array element makes both
normalizers throw a TypeError, and a truthy non-string `exercise` field
survives into the result, so the exercise field need not be a
string. -/
theorem toList_normalizeMain_not_total :
    toList (.arr [.null]) = .error () ∧
    normalizeMain (.arr [.null]) = .error () ∧
    ∃ rs, normalizeMain (.arr [.obj [("exercise", .num 5)]]) = .ok rs ∧
      rs.map (fun r => r.exercise) = [.num 5] := by
  refine ⟨rfl, rfl, ⟨_, rfl, rfl⟩⟩

/-- A concrete draft plan used by witnesses. -/
def demoDraftPlan : Plan :=
  { id := "p1", client_id := "c1", structure_json := generatePlan [] demoProfile,
    status := .draft }

/-- A concrete failing validation result used by witnesses. -/
def demoFailingResult : ValidationResult :=
  { pass := false,
    violations := [{ rule_id := "R1_warmup_main_nonempty", severity := "error",
                     message := "rule violated: R1_warmup_main_nonempty" }] }

/-- Witness for C4 at a concrete draft plan with failing validation. -/
theorem approvePlan_gated_witness :
    approvePlan demoDraftPlan demoFailingResult true =
      (demoDraftPlan, some (.validationFailed demoFailingResult.violations)) :=
  (approvePlan_gated demoDraftPlan demoFailingResult true).1 rfl rfl
